import Mathlib

/-!
# Verification of the BondLinker chat conversation surface

Shallow embedding of `src/lib/firebase.ts` (Firebase notification helpers)
and the `ChatWindow` React component: message grouping flags, the send
pipeline, the typing-signal debouncer, the mark-as-read effect, and the
session lifecycle.  Timestamps are modelled in whole seconds (for grouping)
or milliseconds (for timers) as integers; JavaScript promise results are
modelled as an explicit `JsResult` sum; React state updates are explicit
state-passing.
-/

namespace BondLinker

/-- A chat message as consumed by `ChatWindow` (fields actually read by the
grouping logic: `senderId` is only used for bubble alignment, kept for
fidelity).  `createdAt` is a timestamp; grouping uses whole-second
differences, so we model it as an integer number of seconds. -/
structure Message where
  id : Nat
  senderId : Nat
  recipientId : Nat
  createdAt : Int
  deriving Repr, DecidableEq

/-- `differenceInSeconds(a, b)` from date-fns: the signed difference of the
two timestamps, truncated to whole seconds.  With timestamps already in
whole seconds this is exactly subtraction. -/
def differenceInSeconds (a b : Int) : Int := a - b

/-- `showTimeSeparator={index > 0 && differenceInSeconds(message.createdAt,
messages[index - 1].createdAt) > 600}` (ChatWindow, messages map).
In the component both lookups are in range whenever the guard passes; the
`false` fallback is unreachable there. -/
def showTimeSeparator (msgs : List Message) (index : Nat) : Bool :=
  decide (index > 0) &&
    match msgs.get? index, msgs.get? (index - 1) with
    | some m, some p => decide (differenceInSeconds m.createdAt p.createdAt > 600)
    | _, _ => false

/-- `continiousTop={index > 0 && messages[index - 1].recipientId ==
message.recipientId && differenceInSeconds(message.createdAt,
messages[index - 1].createdAt) < 300}` (ChatWindow, messages map). -/
def continiousTop (msgs : List Message) (index : Nat) : Bool :=
  decide (index > 0) &&
    match msgs.get? index, msgs.get? (index - 1) with
    | some m, some p =>
        (p.recipientId == m.recipientId) &&
          decide (differenceInSeconds m.createdAt p.createdAt < 300)
    | _, _ => false

/-- `continiousBottom={index < messages.length - 1 && messages[index +
1].recipientId == message.recipientId && differenceInSeconds(messages[index
+ 1].createdAt, message.createdAt) < 300}` (ChatWindow, messages map). -/
def continiousBottom (msgs : List Message) (index : Nat) : Bool :=
  decide (index < msgs.length - 1) &&
    match msgs.get? (index + 1), msgs.get? index with
    | some nx, some m =>
        (nx.recipientId == m.recipientId) &&
          decide (differenceInSeconds nx.createdAt m.createdAt < 300)
    | _, _ => false

end BondLinker

namespace BondLinker

/-- Sample messages: three messages, the middle pair close together, a large
gap before the last one. -/
def exMsgs : List Message :=
  [⟨1, 10, 20, 0⟩, ⟨2, 10, 20, 100⟩, ⟨3, 10, 20, 800⟩]

example : showTimeSeparator exMsgs 0 = false := by decide
example : showTimeSeparator exMsgs 2 = true := by decide
example : continiousTop exMsgs 1 = true := by decide
example : continiousTop exMsgs 2 = false := by decide
example : continiousBottom exMsgs 0 = true := by decide
example : continiousBottom exMsgs 1 = false := by decide
example : continiousBottom exMsgs 2 = false := by decide

/-- C1: for a message at a valid index, the three grouping flags hold exactly
under the window conditions stated in the spec: `showTimeSeparator` iff the
index is positive and the gap to the previous message exceeds 600 s;
`continiousTop` iff the index is positive, the previous message has the same
recipient, and the gap is under 300 s; `continiousBottom` iff a next message
exists, has the same recipient, and the gap to it is under 300 s. -/
theorem grouping_flags_spec (msgs : List Message) (i : Nat) (m : Message)
    (hm : msgs.get? i = some m) :
    (showTimeSeparator msgs i = true ↔
      0 < i ∧ ∃ p, msgs.get? (i - 1) = some p ∧
        differenceInSeconds m.createdAt p.createdAt > 600) ∧
    (continiousTop msgs i = true ↔
      0 < i ∧ ∃ p, msgs.get? (i - 1) = some p ∧
        p.recipientId = m.recipientId ∧
        differenceInSeconds m.createdAt p.createdAt < 300) ∧
    (continiousBottom msgs i = true ↔
      ∃ nx, msgs.get? (i + 1) = some nx ∧
        nx.recipientId = m.recipientId ∧
        differenceInSeconds nx.createdAt m.createdAt < 300) := by
  have hi : i < msgs.length := List.get?_eq_some.mp hm |>.1
  refine ⟨?_, ?_, ?_⟩
  · unfold showTimeSeparator
    rw [hm]
    cases hp : msgs.get? (i - 1) with
    | none => simp
    | some p => simp [hp]
  · unfold continiousTop
    rw [hm]
    cases hp : msgs.get? (i - 1) with
    | none => simp
    | some p =>
      simp only [Bool.and_eq_true, decide_eq_true_eq, beq_iff_eq]
      constructor
      · rintro ⟨h0, he, hd⟩
        exact ⟨h0, p, rfl, he, hd⟩
      · rintro ⟨h0, p', hp', he, hd⟩
        cases hp'
        exact ⟨h0, he, hd⟩
  · unfold continiousBottom
    rw [hm]
    cases hn : msgs.get? (i + 1) with
    | none =>
      have hlen : msgs.length ≤ i + 1 := List.get?_eq_none.mp hn
      simp only [Bool.and_eq_true, decide_eq_true_eq]
      constructor
      · rintro ⟨h1, h2⟩
        omega
      · rintro ⟨nx, hnx, _⟩
        cases hnx
    | some nx =>
      have hlt : i + 1 < msgs.length := List.get?_eq_some.mp hn |>.1
      simp only [Bool.and_eq_true, decide_eq_true_eq, beq_iff_eq]
      constructor
      · rintro ⟨_, he, hd⟩
        exact ⟨nx, rfl, he, hd⟩
      · rintro ⟨nx', hnx', he, hd⟩
        cases hnx'
        exact ⟨by omega, he, hd⟩

/-- Witness for `grouping_flags_spec` at index 1 of `exMsgs`. -/
theorem grouping_flags_spec_witness :
    exMsgs.get? 1 = some ⟨2, 10, 20, 100⟩ ∧
    ((showTimeSeparator exMsgs 1 = true ↔
      0 < 1 ∧ ∃ p, exMsgs.get? (1 - 1) = some p ∧
        differenceInSeconds (Message.mk 2 10 20 100).createdAt p.createdAt > 600) ∧
    (continiousTop exMsgs 1 = true ↔
      0 < 1 ∧ ∃ p, exMsgs.get? (1 - 1) = some p ∧
        p.recipientId = (Message.mk 2 10 20 100).recipientId ∧
        differenceInSeconds (Message.mk 2 10 20 100).createdAt p.createdAt < 300) ∧
    (continiousBottom exMsgs 1 = true ↔
      ∃ nx, exMsgs.get? (1 + 1) = some nx ∧
        nx.recipientId = (Message.mk 2 10 20 100).recipientId ∧
        differenceInSeconds nx.createdAt (Message.mk 2 10 20 100).createdAt < 300)) :=
  ⟨by decide, grouping_flags_spec exMsgs 1 ⟨2, 10, 20, 100⟩ (by decide)⟩

/-! ## Send pipeline (`handleSendMessage` and the `sendMessage` mutation) -/

/-- JavaScript `String.prototype.trim()`: strips leading and trailing
whitespace.  Defined over the character list so that it evaluates by
kernel reduction. -/
def jsTrim (s : String) : String :=
  String.mk
    (((s.data.dropWhile Char.isWhitespace).reverse.dropWhile
        Char.isWhitespace).reverse)

example : jsTrim "  Hello " = "Hello" := by decide
example : jsTrim "   " = "" := by decide

/-- Result of a JavaScript async call: resolved value or thrown/rejected
error. -/
inductive JsResult (α : Type) where
  | ok (value : α)
  | thrown (error : String)
  deriving Repr, DecidableEq

/-- Local component state driving the send pipeline of `ChatWindow`,
together with the observable effects it issues.  `newMessage`, `isTyping`
and `isTypingTimeoutID` are the three `useState` cells (the timeout cell is
modelled as the pending 5-second handle, `none` once cleared or fired);
`isPending`/`mutationError` are the `sendMessage` mutation state exposed by
the `useConversation` hook; `sends` records each text handed to
`sendMessage.mutate`; `scrollCount` counts `scrollToBottom()` calls. -/
structure ChatState where
  newMessage : String
  isTyping : Bool
  isTypingTimeoutID : Option Nat
  isPending : Bool
  inFlight : Option String
  sends : List String
  scrollCount : Nat
  mutationError : Option String
  deriving Repr, DecidableEq

/-- `handleSendMessage`: after `e.preventDefault()`, returns unchanged when
`!newMessage.trim()`; otherwise calls `sendMessage.mutate(newMessage, {...})`
(recorded in `sends`/`inFlight`, mutation becomes pending) and then
immediately `setNewMessage('')` — the draft is cleared before any
acknowledgment arrives. -/
def handleSendMessage (s : ChatState) : ChatState :=
  if jsTrim s.newMessage = "" then s
  else
    { s with isPending := true, inFlight := some s.newMessage,
             sends := s.sends ++ [s.newMessage], newMessage := "" }

/-- Modelled from the spec: the `sendMessage` mutation of the
`useConversation` hook (`@/hooks/use-messages`, not under `src/`) follows the
spec's send contract — `sendMessage(text) -> ack|error` with the pending
flag set while in flight and cleared when the call settles, the error kept
in mutation state rather than rethrown.  On success `ChatWindow`'s
`onSuccess` callback runs: `setIsTyping(false)`,
`clearTimeout(isTypingTimeoutID)`, `scrollToBottom()`.  No `onError`
callback is installed, so on failure only the mutation state changes. -/
def settleSend (result : JsResult Unit) (s : ChatState) : ChatState :=
  match result with
  | .ok _ =>
      { s with isPending := false, inFlight := none, isTyping := false,
               isTypingTimeoutID := none, scrollCount := s.scrollCount + 1 }
  | .thrown err =>
      { s with isPending := false, inFlight := none, mutationError := some err }

/-- A state with a whitespace-only draft, a live typing timer, nothing
pending. -/
def blankDraftState : ChatState :=
  { newMessage := "   ", isTyping := true, isTypingTimeoutID := some 5000,
    isPending := false, inFlight := none, sends := [], scrollCount := 0,
    mutationError := none }

/-- A state whose draft is `"Hello"`, with a live typing timer. -/
def helloState : ChatState :=
  { newMessage := "Hello", isTyping := true, isTypingTimeoutID := some 7000,
    isPending := false, inFlight := none, sends := [], scrollCount := 0,
    mutationError := none }

/-- C5: submitting with a draft whose trimmed form is empty is a no-op —
the state after `handleSendMessage` is literally the state before, so no
send is issued (`sends` unchanged) and draft, typing flag, timer and
pending flag are all untouched. -/
theorem send_empty_draft_noop (s : ChatState) (h : jsTrim s.newMessage = "") :
    handleSendMessage s = s := by
  unfold handleSendMessage
  simp [h]

/-- Witness for `send_empty_draft_noop` at a whitespace-only draft. -/
theorem send_empty_draft_noop_witness :
    jsTrim blankDraftState.newMessage = "" ∧
      handleSendMessage blankDraftState = blankDraftState :=
  ⟨by decide, send_empty_draft_noop blankDraftState (by decide)⟩

/-- C6: sending a non-empty draft sets the pending flag at once and issues
exactly one outbound send; on acknowledgment the pending flag clears, the
draft is empty, the typing flag is false with its timer cancelled, and one
scroll-to-end effect has been triggered. -/
theorem send_success_spec (s : ChatState) (h : jsTrim s.newMessage ≠ "") :
    (handleSendMessage s).isPending = true ∧
    (handleSendMessage s).sends = s.sends ++ [s.newMessage] ∧
    (settleSend (JsResult.ok ()) (handleSendMessage s)).isPending = false ∧
    (settleSend (JsResult.ok ()) (handleSendMessage s)).newMessage = "" ∧
    (settleSend (JsResult.ok ()) (handleSendMessage s)).isTyping = false ∧
    (settleSend (JsResult.ok ()) (handleSendMessage s)).isTypingTimeoutID = none ∧
    (settleSend (JsResult.ok ()) (handleSendMessage s)).scrollCount = s.scrollCount + 1 := by
  unfold handleSendMessage settleSend
  simp [h]

/-- Witness for `send_success_spec` on the `"Hello"` draft. -/
theorem send_success_spec_witness :
    jsTrim helloState.newMessage ≠ "" ∧
    ((handleSendMessage helloState).isPending = true ∧
    (handleSendMessage helloState).sends = helloState.sends ++ [helloState.newMessage] ∧
    (settleSend (JsResult.ok ()) (handleSendMessage helloState)).isPending = false ∧
    (settleSend (JsResult.ok ()) (handleSendMessage helloState)).newMessage = "" ∧
    (settleSend (JsResult.ok ()) (handleSendMessage helloState)).isTyping = false ∧
    (settleSend (JsResult.ok ()) (handleSendMessage helloState)).isTypingTimeoutID = none ∧
    (settleSend (JsResult.ok ()) (handleSendMessage helloState)).scrollCount
      = helloState.scrollCount + 1) :=
  ⟨by decide, send_success_spec helloState (by decide)⟩

/-- C2 counterexample: with draft `"Hello"` and a rejected send, the draft
after the failure is NOT the draft that was sent — `setNewMessage('')` runs
unconditionally right after `mutate`, so the text is lost rather than
preserved for retry. -/
theorem send_failure_draft_cex :
    ¬ ((settleSend (JsResult.thrown "rejected")
          (handleSendMessage helloState)).newMessage
        = helloState.newMessage) := by
  decide

/-- C2 amended: after a rejected send of a non-empty draft the pending flag
is cleared and the error is kept in mutation state (never rethrown — the
settlement is a total function), but the draft has already been cleared to
`""` at send time, so it is not preserved for retry. -/
theorem send_failure_amended (s : ChatState) (err : String)
    (h : jsTrim s.newMessage ≠ "") :
    (settleSend (JsResult.thrown err) (handleSendMessage s)).isPending = false ∧
    (settleSend (JsResult.thrown err) (handleSendMessage s)).newMessage = "" ∧
    (settleSend (JsResult.thrown err) (handleSendMessage s)).mutationError = some err ∧
    (settleSend (JsResult.thrown err) (handleSendMessage s)).sends
      = s.sends ++ [s.newMessage] := by
  unfold handleSendMessage settleSend
  simp [h]

/-- Witness for `send_failure_amended` on the `"Hello"` draft. -/
theorem send_failure_amended_witness :
    jsTrim helloState.newMessage ≠ "" ∧
    ((settleSend (JsResult.thrown "rejected") (handleSendMessage helloState)).isPending = false ∧
    (settleSend (JsResult.thrown "rejected") (handleSendMessage helloState)).newMessage = "" ∧
    (settleSend (JsResult.thrown "rejected") (handleSendMessage helloState)).mutationError
      = some "rejected" ∧
    (settleSend (JsResult.thrown "rejected") (handleSendMessage helloState)).sends
      = helloState.sends ++ [helloState.newMessage]) :=
  ⟨by decide, send_failure_amended helloState "rejected" (by decide)⟩

/-! ## Input handler and the typing-indicator effect -/

/-- `handleInputChange`: `setNewMessage(e.target.value)`; `if
(!e.target.value) return`; otherwise `setIsTyping(true)`,
`clearTimeout(isTypingTimeoutID)`, and `setIsTypingTimeoutID(
window.setTimeout(() => setIsTyping(false), 5000))`.  `now` is the current
time in milliseconds; the armed handle is modelled as its absolute expiry
`now + 5000`. -/
def handleInputChange (now : Nat) (value : String) (s : ChatState) : ChatState :=
  let s1 := { s with newMessage := value }
  if value = "" then s1
  else { s1 with isTyping := true, isTypingTimeoutID := some (now + 5000) }

/-- The typing-indicator effect of `ChatWindow`:
`if (!conversation || !debouncedTyping || !newMessage.trim()) return;
onIsTypingChange?.(debouncedTyping)`.  Returns the value handed to
`onIsTypingChange`, or `none` when the guard returns early.  `conversation`
is the loaded conversation's reference identity (`none` while loading or
when not found). -/
def typingEffectEmit (conversation : Option Nat) (debouncedTyping : Bool)
    (newMessage : String) : Option Bool :=
  if conversation.isNone || !debouncedTyping || jsTrim newMessage = "" then none
  else some debouncedTyping

/-- C7: when the draft trims to the empty string, the typing effect emits
nothing at all — `onIsTypingChange` is not invoked with any value, so a
typing broadcast can only happen while the draft is non-empty. -/
theorem empty_draft_no_typing_signal (conversation : Option Nat)
    (debouncedTyping : Bool) (newMessage : String)
    (h : jsTrim newMessage = "") :
    typingEffectEmit conversation debouncedTyping newMessage = none := by
  unfold typingEffectEmit
  simp [h]

/-- Witness for `empty_draft_no_typing_signal`: a whitespace-only draft with
a loaded conversation and a settled `true` debounce value emits nothing. -/
theorem empty_draft_no_typing_signal_witness :
    jsTrim "  " = "" ∧ typingEffectEmit (some 1) true "  " = none :=
  ⟨by decide, empty_draft_no_typing_signal (some 1) true "  " (by decide)⟩

/-- C10: an input event whose new value is the empty string updates only the
draft text; the typing flag and any previously armed 5-second timeout handle
are exactly as before, so an earlier timer keeps running until it fires. -/
theorem empty_input_only_updates_draft (now : Nat) (s : ChatState) :
    (handleInputChange now "" s).newMessage = "" ∧
    (handleInputChange now "" s).isTyping = s.isTyping ∧
    (handleInputChange now "" s).isTypingTimeoutID = s.isTypingTimeoutID ∧
    handleInputChange now "" s = { s with newMessage := "" } := by
  unfold handleInputChange
  simp

/-! ## The mark-as-read effect over committed renders -/

/-- One committed render of `ChatWindow`, as seen by its effects: the
`conversation` object from `useConversation` (modelled by its reference
identity, `none` while loading or when not found) and the current message
list from `useMessages`. -/
structure Render where
  conversation : Option Nat
  messages : List Message
  deriving Repr, DecidableEq

/-- React dependency check for `useEffect(..., [conversation])`: the effect
body runs after the first render, and after any render whose dependency
value differs from the previous render's.  `prev` is `none` before the
first render. -/
def effectFires (prev : Option (Option Nat)) (dep : Option Nat) : Bool :=
  match prev with
  | none => true
  | some p => p != dep

/-- `useEffect(() => { if (conversation) { markAsRead.mutate() } },
[conversation])`: the number of `markAsRead.mutate()` calls issued across a
sequence of committed renders, `prev` being the dependency value of the
render before the sequence (if any). -/
def markAsReadCallsAux : Option (Option Nat) → List Render → Nat
  | _, [] => 0
  | prev, r :: rs =>
      (if effectFires prev r.conversation && r.conversation.isSome then 1 else 0)
        + markAsReadCallsAux (some r.conversation) rs

/-- `markAsRead.mutate()` calls issued from mount across the given renders. -/
def markAsReadCalls (rs : List Render) : Nat := markAsReadCallsAux none rs

/-- Dependency value after processing the given renders, starting from
`prev`. -/
def lastConvDep (prev : Option (Option Nat)) : List Render → Option (Option Nat)
  | [] => prev
  | r :: rs => lastConvDep (some r.conversation) rs

theorem markAsReadCallsAux_append (prev : Option (Option Nat))
    (rs : List Render) (r : Render) :
    markAsReadCallsAux prev (rs ++ [r]) =
      markAsReadCallsAux prev rs +
        (if effectFires (lastConvDep prev rs) r.conversation
            && r.conversation.isSome then 1 else 0) := by
  induction rs generalizing prev with
  | nil => simp [markAsReadCallsAux, lastConvDep]
  | cons a t ih =>
    simp only [List.cons_append, markAsReadCallsAux, List.append_eq,
      lastConvDep, ih]
    omega

theorem lastConvDep_getLast (rs : List Render) (last : Render)
    (prev : Option (Option Nat)) :
    rs.getLast? = some last → lastConvDep prev rs = some last.conversation := by
  induction rs generalizing prev with
  | nil => intro h; simp at h
  | cons a t ih =>
    intro h
    cases t with
    | nil =>
      simp [List.getLast?] at h
      subst h
      rfl
    | cons b t' =>
      rw [List.getLast?_cons_cons] at h
      exact ih (some a.conversation) h

/-- C3: appending a committed render that keeps the same conversation object
(e.g. only a new message arrived) issues no further `markAsRead.mutate`;
appending one whose conversation changed to a non-null object (conversation
selection or re-selection) issues exactly one more; and on the very first
render exactly one call is issued iff the conversation is non-null. -/
theorem mark_as_read_per_selection (rs : List Render) (last r : Render)
    (h : rs.getLast? = some last) :
    (r.conversation = last.conversation →
        markAsReadCalls (rs ++ [r]) = markAsReadCalls rs) ∧
    (r.conversation ≠ last.conversation → r.conversation.isSome = true →
        markAsReadCalls (rs ++ [r]) = markAsReadCalls rs + 1) ∧
    markAsReadCalls [r] = (if r.conversation.isSome then 1 else 0) := by
  have hl := lastConvDep_getLast rs last none h
  unfold markAsReadCalls
  rw [markAsReadCallsAux_append, hl]
  refine ⟨?_, ?_, ?_⟩
  · intro he
    simp [effectFires, he]
  · intro hne hs
    have hb : (last.conversation != r.conversation) = true := by
      simp only [bne_iff_ne, ne_eq]
      exact fun he => hne he.symm
    simp [effectFires, hb, hs]
  · simp [markAsReadCallsAux, effectFires]

/-- Witness for `mark_as_read_per_selection`: one ready render of
conversation 1, then a render with one more message — no second call; a
render switching to conversation 2 — exactly one more call. -/
theorem mark_as_read_per_selection_witness :
    ([Render.mk (some 1) []].getLast? = some (Render.mk (some 1) [])) ∧
    (((Render.mk (some 1) exMsgs).conversation = (Render.mk (some 1) []).conversation →
        markAsReadCalls ([Render.mk (some 1) []] ++ [Render.mk (some 1) exMsgs])
          = markAsReadCalls [Render.mk (some 1) []]) ∧
    ((Render.mk (some 1) exMsgs).conversation ≠ (Render.mk (some 1) []).conversation →
        (Render.mk (some 1) exMsgs).conversation.isSome = true →
        markAsReadCalls ([Render.mk (some 1) []] ++ [Render.mk (some 1) exMsgs])
          = markAsReadCalls [Render.mk (some 1) []] + 1) ∧
    markAsReadCalls [Render.mk (some 1) exMsgs]
      = (if (Render.mk (some 1) exMsgs).conversation.isSome then 1 else 0)) :=
  ⟨by decide,
    mark_as_read_per_selection [Render.mk (some 1) []]
      (Render.mk (some 1) []) (Render.mk (some 1) exMsgs) (by decide)⟩

/-! ## Session lifecycle: conversation id change -/

/-- The initial values of `ChatWindow`'s local state: `useState('')` for the
draft, `useState(false)` for the typing flag, `useState(0)` for the timeout
handle (no timeout armed), and an idle `sendMessage` mutation. -/
def initialChatState : ChatState :=
  { newMessage := "", isTyping := false, isTypingTimeoutID := none,
    isPending := false, inFlight := none, sends := [], scrollCount := 0,
    mutationError := none }

/-- Modelled from the spec: the parent that mounts `ChatWindow` per
conversation id is not under `src/`.  Per the session-lifecycle contract
(spec §4.4), when the conversation id changes the component instance is
torn down and recreated, so every local `useState` cell and the mutation
state restart at their initial values; for an unchanged id the instance and
its state are kept. -/
def remountOnIdChange (oldId newId : String) (s : ChatState) : ChatState :=
  if newId = oldId then s else initialChatState

/-- C4: switching the conversation id from `A` to `B ≠ A` resets the draft,
typing flag, typing timer and pending-send state to their initial values;
the post-switch state is independent of whatever was typed or pending
before the switch. -/
theorem conversation_switch_resets_state (oldId newId : String)
    (s t : ChatState) (h : oldId ≠ newId) :
    remountOnIdChange oldId newId s = initialChatState ∧
    remountOnIdChange oldId newId s = remountOnIdChange oldId newId t := by
  unfold remountOnIdChange
  have hne : ¬ (newId = oldId) := fun he => h he.symm
  simp [hne]

/-- Witness for `conversation_switch_resets_state`: switching from `"A"` to
`"B"` wipes a dirty state and agrees with the switch from a clean one. -/
theorem conversation_switch_resets_state_witness :
    "A" ≠ "B" ∧
    (remountOnIdChange "A" "B" helloState = initialChatState ∧
      remountOnIdChange "A" "B" helloState
        = remountOnIdChange "A" "B" blankDraftState) :=
  ⟨by decide, conversation_switch_resets_state "A" "B" helloState
    blankDraftState (by decide)⟩

/-! ## Notification permission and FCM token bootstrap -/

/-- `getFCMToken`: `try { const token = await getToken(messaging, {...});
return token } catch (error) { console.error('FCM token error:', error);
return null }`.  `tokenCall` is the outcome of the `getToken` promise; the
result pairs the returned value (`none` is JS `null`) with the
`console.error` lines produced.  The function is total: every outcome maps
to a return value, never a rethrow. -/
def getFCMToken (tokenCall : JsResult String) : Option String × List String :=
  match tokenCall with
  | .ok token => (some token, [])
  | .thrown error => (none, ["FCM token error: " ++ error])

/-- `requestNotificationPermission`: `try { const permission = await
Notification.requestPermission(); if (permission === 'granted') { return
await getFCMToken() } return null } catch (error) { console.error(
'Notification permission error:', error); return null }`. -/
def requestNotificationPermission (permissionCall : JsResult String)
    (tokenCall : JsResult String) : Option String × List String :=
  match permissionCall with
  | .thrown error => (none, ["Notification permission error: " ++ error])
  | .ok permission =>
      if permission = "granted" then getFCMToken tokenCall
      else (none, [])

/-- C9 counterexample: when the permission request resolves `"denied"`, the
function does return the null sentinel but logs nothing, so "returns the
null sentinel and logs the error" fails for that failure. -/
theorem notification_denied_unlogged_cex :
    ¬ ((requestNotificationPermission (JsResult.ok "denied")
          (JsResult.ok "tok")).1 = none ∧
       (requestNotificationPermission (JsResult.ok "denied")
          (JsResult.ok "tok")).2 ≠ []) := by
  decide

/-- C9 amended: every failure returns the null sentinel and nothing
propagates (both functions are total); when the underlying call throws —
the permission request or the token fetch — the error is additionally
logged, while a plain non-granted permission returns null silently. -/
theorem notification_failure_amended (permissionError tokenError p : String)
    (tokenCall : JsResult String) (h : p ≠ "granted") :
    (requestNotificationPermission (JsResult.thrown permissionError)
        tokenCall).1 = none ∧
    (requestNotificationPermission (JsResult.thrown permissionError)
        tokenCall).2 ≠ [] ∧
    requestNotificationPermission (JsResult.ok p) tokenCall = (none, []) ∧
    (requestNotificationPermission (JsResult.ok "granted")
        (JsResult.thrown tokenError)).1 = none ∧
    (requestNotificationPermission (JsResult.ok "granted")
        (JsResult.thrown tokenError)).2 ≠ [] := by
  unfold requestNotificationPermission getFCMToken
  simp [h]

/-- Witness for `notification_failure_amended`: a thrown permission
request, a `"denied"` grant, and a thrown token fetch. -/
theorem notification_failure_amended_witness :
    "denied" ≠ "granted" ∧
    ((requestNotificationPermission (JsResult.thrown "boom")
        (JsResult.ok "tok")).1 = none ∧
    (requestNotificationPermission (JsResult.thrown "boom")
        (JsResult.ok "tok")).2 ≠ [] ∧
    requestNotificationPermission (JsResult.ok "denied")
        (JsResult.ok "tok") = (none, []) ∧
    (requestNotificationPermission (JsResult.ok "granted")
        (JsResult.thrown "net")).1 = none ∧
    (requestNotificationPermission (JsResult.ok "granted")
        (JsResult.thrown "net")).2 ≠ []) :=
  ⟨by decide, notification_failure_amended "boom" "net" "denied"
    (JsResult.ok "tok") (by decide)⟩

/-! ## Timed semantics of the typing debouncer -/

/-- Whole-session state for the typing-signal machinery of `ChatWindow`,
with absolute times in milliseconds.  `typingTimer` is the armed 5-second
`setTimeout` handle (its absolute expiry); `debouncedTyping` is the output
of `useDebounce(isTyping, 1000)` and `debPending` its armed 1-second timer
(the value to adopt and the absolute settle time); `emitted` records each
`(time, value)` the typing effect delivers to `onIsTypingChange`. -/
structure TypingMachine where
  draft : String
  isTyping : Bool
  typingTimer : Option Nat
  debouncedTyping : Bool
  debPending : Option (Bool × Nat)
  emitted : List (Nat × Bool)
  deriving Repr, DecidableEq

/-- The state right after mount: empty draft, no typing, no timers, no
emissions. -/
def initTypingMachine : TypingMachine :=
  { draft := "", isTyping := false, typingTimer := none,
    debouncedTyping := false, debPending := none, emitted := [] }

/-- A keystroke at time `t` producing input value `s`: `handleInputChange`
runs — `setNewMessage(s)`, and for a non-empty value `setIsTyping(true)`,
`clearTimeout` of the old handle and a fresh 5-second timeout.  Modelled
from the spec for the `useDebounce` hook (`@/hooks/use-debounce`, not under
`src/`): its 1-second timer is (re)armed only when the input value actually
changes, and on settling the output adopts the input value. -/
def keystrokeAt (t : Nat) (s : String) (m : TypingMachine) : TypingMachine :=
  let m1 := { m with draft := s }
  if s = "" then m1
  else
    { m1 with
        isTyping := true
        typingTimer := some (t + 5000)
        debPending := if m.isTyping then m.debPending else some (true, t + 1000) }

/-- The 5-second typing timeout fires: `setIsTyping(false)`; the change of
the debounced input value (re)arms the 1-second debounce timer. -/
def fireTypingTimer (m : TypingMachine) : TypingMachine :=
  match m.typingTimer with
  | none => m
  | some expiry =>
      if m.isTyping then
        { m with isTyping := false, typingTimer := none,
                 debPending := some (false, expiry + 1000) }
      else
        { m with typingTimer := none }

/-- The debounce timer settles: `debouncedTyping` adopts the pending value;
if that value differs from the previous output, the typing effect re-runs
and may call `onIsTypingChange`. -/
def fireDebounce (conversation : Option Nat) (m : TypingMachine) :
    TypingMachine :=
  match m.debPending with
  | none => m
  | some (v, settleTime) =>
      if v == m.debouncedTyping then
        { m with debouncedTyping := v, debPending := none }
      else
        match typingEffectEmit conversation v m.draft with
        | some b =>
            { m with debouncedTyping := v, debPending := none,
                     emitted := m.emitted ++ [(settleTime, b)] }
        | none => { m with debouncedTyping := v, debPending := none }

/-- The earliest armed internal timer: `true` tags the 5-second typing
timeout, `false` the debounce timer; ties go to the typing timeout. -/
def nextInternal (m : TypingMachine) : Option (Nat × Bool) :=
  match m.typingTimer, m.debPending with
  | none, none => none
  | some a, none => some (a, true)
  | none, some (_, b) => some (b, false)
  | some a, some (_, b) => if a ≤ b then some (a, true) else some (b, false)

/-- Event-loop scheduler: repeatedly process the earliest of the armed
internal timers and the remaining keystrokes (internal timers first on a
tie), fuel bounding the number of steps. -/
def runTypingAux (conversation : Option Nat) :
    Nat → List (Nat × String) → TypingMachine → TypingMachine
  | 0, _, m => m
  | fuel + 1, evs, m =>
    match nextInternal m, evs with
    | none, [] => m
    | some (_, isTimerT), [] =>
        runTypingAux conversation fuel []
          (if isTimerT then fireTypingTimer m else fireDebounce conversation m)
    | none, (t, s) :: rest =>
        runTypingAux conversation fuel rest (keystrokeAt t s m)
    | some (a, isTimerT), (t, s) :: rest =>
        if a ≤ t then
          runTypingAux conversation fuel ((t, s) :: rest)
            (if isTimerT then fireTypingTimer m else fireDebounce conversation m)
        else
          runTypingAux conversation fuel rest (keystrokeAt t s m)

/-- Run a session from the mount state over time-ordered keystrokes with a
loaded conversation, with enough fuel to drain all events and timers. -/
def runTypingTrace (evs : List (Nat × String)) : TypingMachine :=
  runTypingAux (some 1) (4 * evs.length + 4) evs initTypingMachine

theorem typingEffectEmit_some (conv : Option Nat) (d : Bool) (msg : String)
    (b : Bool) (h : typingEffectEmit conv d msg = some b) : b = true := by
  cases d with
  | false => simp [typingEffectEmit] at h
  | true =>
    unfold typingEffectEmit at h
    split at h
    · cases h
    · exact (Option.some.inj h).symm

theorem keystrokeAt_emitted (t : Nat) (s : String) (m : TypingMachine) :
    (keystrokeAt t s m).emitted = m.emitted := by
  unfold keystrokeAt
  split <;> rfl

theorem fireTypingTimer_emitted (m : TypingMachine) :
    (fireTypingTimer m).emitted = m.emitted := by
  unfold fireTypingTimer
  split
  · rfl
  · split <;> rfl

theorem fireDebounce_allTrue (conv : Option Nat) (m : TypingMachine)
    (h : ∀ p ∈ m.emitted, p.2 = true) :
    ∀ p ∈ (fireDebounce conv m).emitted, p.2 = true := by
  unfold fireDebounce
  split
  · exact h
  · next v settleTime hv =>
    split
    · exact h
    · split
      · next b hb =>
        intro p hp
        rcases List.mem_append.mp hp with hp | hp
        · exact h p hp
        · rcases List.mem_singleton.mp hp with rfl
          exact typingEffectEmit_some conv v _ b hb
      · exact h

theorem runTypingAux_allTrue (conv : Option Nat) (fuel : Nat)
    (evs : List (Nat × String)) (m : TypingMachine)
    (h : ∀ p ∈ m.emitted, p.2 = true) :
    ∀ p ∈ (runTypingAux conv fuel evs m).emitted, p.2 = true := by
  induction fuel generalizing evs m with
  | zero => exact h
  | succ n ih =>
    unfold runTypingAux
    split
    · exact h
    · apply ih
      split
      · rw [fireTypingTimer_emitted]; exact h
      · exact fireDebounce_allTrue conv m h
    · apply ih
      rw [keystrokeAt_emitted]; exact h
    · split
      · apply ih
        split
        · rw [fireTypingTimer_emitted]; exact h
        · exact fireDebounce_allTrue conv m h
      · apply ih
        rw [keystrokeAt_emitted]; exact h

/-- C8 counterexample: a single keystroke `"h"` at time 0, then silence.
The local typing flag does auto-clear (5 s timer) and the debounced value
settles back to false at 6000 ms, yet the only value ever handed to
`onIsTypingChange` is the `true` at 1000 ms — the debounce-settled `false`
is never forwarded, because the effect returns early when
`debouncedTyping` is false. -/
theorem typing_autoclear_not_forwarded_cex :
    (runTypingTrace [(0, "h")]).emitted = [(1000, true)] ∧
    (runTypingTrace [(0, "h")]).isTyping = false ∧
    (runTypingTrace [(0, "h")]).debouncedTyping = false := by
  decide

/-- C8 amended: a keystroke with a non-empty value sets the local typing
flag and (re)arms the 5-second expiry timer; on the single-keystroke trace
the debounced `true` is broadcast exactly 1000 ms after the keystroke and
the local flag has auto-cleared by the end; but no `false` is ever
forwarded to the typing-change callback — every emission on every trace
carries the value `true`. -/
theorem typing_keystroke_amended (t : Nat) (s : String) (st : ChatState)
    (evs : List (Nat × String)) (p : Nat × Bool)
    (hs : s ≠ "") (hp : p ∈ (runTypingTrace evs).emitted) :
    (handleInputChange t s st).isTyping = true ∧
    (handleInputChange t s st).isTypingTimeoutID = some (t + 5000) ∧
    p.2 = true ∧
    (runTypingTrace [(0, "h")]).emitted = [(1000, true)] ∧
    (runTypingTrace [(0, "h")]).isTyping = false := by
  refine ⟨?_, ?_, ?_, by decide, by decide⟩
  · unfold handleInputChange
    simp [hs]
  · unfold handleInputChange
    simp [hs]
  · exact runTypingAux_allTrue (some 1) _ evs initTypingMachine
      (by intro q hq; cases hq) p hp

/-- Witness for `typing_keystroke_amended` on the single-keystroke trace. -/
theorem typing_keystroke_amended_witness :
    ("h" ≠ "" ∧ (1000, true) ∈ (runTypingTrace [(0, "h")]).emitted) ∧
    ((handleInputChange 0 "h" helloState).isTyping = true ∧
    (handleInputChange 0 "h" helloState).isTypingTimeoutID = some (0 + 5000) ∧
    (1000, true).2 = true ∧
    (runTypingTrace [(0, "h")]).emitted = [(1000, true)] ∧
    (runTypingTrace [(0, "h")]).isTyping = false) :=
  ⟨⟨by decide, by decide⟩,
    typing_keystroke_amended 0 "h" helloState [(0, "h")] (1000, true)
      (by decide) (by decide)⟩

end BondLinker
